import Mathlib

/-!
A shallow embedding of the LC-3-style virtual machine implemented in
`src/proto.c`.  Machine words are modelled as `Nat` with explicit
reduction modulo `2^16 = 65536` wherever the C code's `uint16_t`
conversions truncate; memory and the register file are total functions
`Nat → Nat`; console input, the keyboard-availability poll and console
output are explicit streams carried in the machine state.  Values of
uninitialized C locals that the code reads (`r1` in `OP_JSR`,
`pc_offset` in `OP_LDI`, the pointer `c` in `TRAP_IN`) are supplied as
explicit `Junk` parameters.
-/

/-! ### Register indices, flags, opcodes, trap vectors, mapped addresses -/

def R_R0 : Nat := 0

def R_R7 : Nat := 7

def R_PC : Nat := 8

def R_COND : Nat := 9

def FL_POS : Nat := 1

def FL_ZRO : Nat := 2

def FL_NEG : Nat := 4

def OP_BR : Nat := 0

def OP_ADD : Nat := 1

def OP_LD : Nat := 2

def OP_ST : Nat := 3

def OP_JSR : Nat := 4

def OP_AND : Nat := 5

def OP_LDR : Nat := 6

def OP_STR : Nat := 7

def OP_RTI : Nat := 8

def OP_NOT : Nat := 9

def OP_LDI : Nat := 10

def OP_STI : Nat := 11

def OP_JMP : Nat := 12

def OP_RES : Nat := 13

def OP_LEA : Nat := 14

def OP_TRAP : Nat := 15

def TRAP_GETC : Nat := 0x20

def TRAP_OUT : Nat := 0x21

def TRAP_PUTS : Nat := 0x22

def TRAP_IN : Nat := 0x23

def TRAP_PUTSP : Nat := 0x24

def TRAP_HALT : Nat := 0x25

def MR_KBSR : Nat := 0xFE00

def MR_KBDR : Nat := 0xFE02

/-! ### Machine state -/

/-- The state of the virtual machine: the 65536-word memory and the
10-element register file (both as total functions on `Nat`, truncated
mod `2^16` at every store), plus the external world: the stream of
`check_key` poll results, the stream of pending input characters, and
the bytes written to standard output so far. -/
structure Machine where
  memory : Nat → Nat
  registers : Nat → Nat
  keys : List Bool
  input : List Nat
  output : List Nat

/-- Values of the uninitialized C locals read by the buggy branches of
`proto.c`: `r1` (read by `OP_JSR`'s long branch), `pc_offset` (read by
`OP_LDI`), and the low 16 bits of the pointer `c` (stored to `R0` by
`TRAP_IN`). -/
structure Junk where
  r1 : Nat
  pc_offset : Nat
  c : Nat

/-! ### Helpers mirroring the C functions -/

/-- A store into the `uint16_t registers[]` array: truncates mod `2^16`. -/
def regWrite (regs : Nat → Nat) (r v : Nat) : Nat → Nat :=
  fun i => if i = r then v % 65536 else regs i

/-- `mem_write` from `proto.c`: a store into the `uint16_t memory[]`
array, truncating the value mod `2^16`. -/
def mem_write (m : Nat → Nat) (address val : Nat) : Nat → Nat :=
  fun i => if i = address then val % 65536 else m i

/-- Model of `check_key`: consumes the next poll result from the
external availability stream (no pending result models "no key"). -/
def check_key : List Bool → Bool × List Bool
  | [] => (false, [])
  | k :: rest => (k, rest)

/-- Model of `getchar`: consumes the next pending input character;
an exhausted stream yields `EOF` cast to `uint16_t`, i.e. `0xFFFF`. -/
def getchar : List Nat → Nat × List Nat
  | [] => (0xFFFF, [])
  | ch :: rest => (ch, rest)

/-- `sign_extend` from `proto.c`: if bit `bit_count - 1` of `x` is set,
`x |= 0xFFFF << bit_count`, truncated by the `uint16_t` store. -/
def sign_extend (x : Nat) (bit_count : Nat) : Nat :=
  if (x >>> (bit_count - 1)) &&& 1 = 1 then (x ||| (0xFFFF <<< bit_count)) % 65536
  else x

/-- The flag chosen by `update_flags` for a register value: zero gives
`FL_ZRO`, a set bit 15 gives `FL_NEG`, anything else gives `FL_POS`. -/
def flagOf (x : Nat) : Nat :=
  if x = 0 then FL_ZRO else if x >>> 15 ≠ 0 then FL_NEG else FL_POS

/-- `update_flags` from `proto.c`: writes exactly one of the three
condition flags into `R_COND`, chosen from the value in register `r`. -/
def update_flags (regs : Nat → Nat) (r : Nat) : Nat → Nat :=
  if regs r = 0 then regWrite regs R_COND FL_ZRO
  else if regs r >>> 15 ≠ 0 then regWrite regs R_COND FL_NEG
  else regWrite regs R_COND FL_POS

/-- `mem_read` from `proto.c`: reading `MR_KBSR` first polls
`check_key`; when a key is available it stores `1 << 15` into `MR_KBSR`
and the next `getchar` result into `MR_KBDR`, otherwise it stores `0`
into `MR_KBSR`; then the (updated) word at `address` is returned.
Every other address is a plain array read. -/
def mem_read (s : Machine) (address : Nat) : Nat × Machine :=
  if address = MR_KBSR then
    let polled := check_key s.keys
    if polled.1 then
      let got := getchar s.input
      let memory2 := mem_write (mem_write s.memory MR_KBSR (1 <<< 15)) MR_KBDR got.1
      (memory2 address, { s with memory := memory2, keys := polled.2, input := got.2 })
    else
      let memory2 := mem_write s.memory MR_KBSR 0
      (memory2 address, { s with memory := memory2, keys := polled.2 })
  else (s.memory address, s)

/-- The byte stream emitted by the `TRAP_PUTS` loop: low bytes of the
words starting at `c`, until a zero word (fuel-bounded walk of the
unbounded C pointer loop). -/
def putsBytes (m : Nat → Nat) (c fuel : Nat) : List Nat :=
  match fuel with
  | 0 => []
  | fuel + 1 => if m c = 0 then [] else (m c &&& 0xFF) :: putsBytes m (c + 1) fuel

/-- The byte stream emitted by the `TRAP_PUTSP` loop: for each nonzero
word, the low byte, then the high byte when it is nonzero. -/
def putspBytes (m : Nat → Nat) (c fuel : Nat) : List Nat :=
  match fuel with
  | 0 => []
  | fuel + 1 =>
    if m c = 0 then []
    else
      (m c &&& 0xFF) :: (if (m c >>> 8) &&& 0xFF = 0 then [] else [(m c >>> 8) &&& 0xFF])
        ++ putspBytes m (c + 1) fuel

/-- The bytes of the `TRAP_IN` prompt `printf("Enter a character : ")`. -/
def promptBytes : List Nat := "Enter a character : ".toList.map Char.toNat

/-- The bytes of `puts("HALT")`: the string plus the trailing newline. -/
def haltBytes : List Nat := "HALT".toList.map Char.toNat ++ [10]

/-! ### One fetch-decode-execute step -/

/-- Result of executing one instruction: continue running, stop the
loop (`running = 0`, from `TRAP_HALT`), or `abort()` (the `OP_RES` /
`OP_RTI` / default branches). -/
inductive StepResult where
  | ok (s : Machine)
  | halt (s : Machine)
  | abort

/-- The `OP_TRAP` case of `proto.c`'s dispatch: `R7 = PC`, then the
inner switch on the 8-bit trap vector.  `TRAP_IN` stores the truncated
uninitialized pointer `c` (as `junk.c`) into `R0` -- exactly what
`registers[R_R0] = (uint16_t)c;` does. -/
def execTrap (s : Machine) (instr : Nat) (junk : Junk) : StepResult :=
  let s1 : Machine := { s with registers := regWrite s.registers R_R7 (s.registers R_PC) }
  let vec := instr &&& 0xFF
  if vec = TRAP_GETC then
    let got := getchar s1.input
    let regs2 := regWrite s1.registers R_R0 got.1
    .ok { s1 with registers := update_flags regs2 R_R0, input := got.2 }
  else if vec = TRAP_OUT then
    .ok { s1 with output := s1.output ++ [s1.registers R_R0 &&& 0xFF] }
  else if vec = TRAP_PUTS then
    .ok { s1 with output := s1.output ++ putsBytes s1.memory (s1.registers R_R0) 65536 }
  else if vec = TRAP_IN then
    let got := getchar s1.input
    let regs2 := regWrite s1.registers R_R0 junk.c
    .ok { s1 with registers := update_flags regs2 R_R0, input := got.2,
                  output := s1.output ++ promptBytes ++ [got.1 &&& 0xFF] }
  else if vec = TRAP_PUTSP then
    .ok { s1 with output := s1.output ++ putspBytes s1.memory (s1.registers R_R0) 65536 }
  else if vec = TRAP_HALT then
    .halt { s1 with output := s1.output ++ haltBytes }
  else
    .ok s1

/-- The decode/execute switch of `proto.c`'s main loop, applied to a
state in which `PC` has already been incremented past the instruction.
Faithful to the source, bugs included: `OP_JMP` adds the base register
to `PC` instead of replacing it; `OP_JSR`'s long branch jumps to
`registers[r1]` with `r1` uninitialized and its register branch does
nothing; `OP_LDI` assigns the loaded word to the local `pc_offset`
(computed from the uninitialized `pc_offset`) and never writes the
destination register. -/
def execInstr (s : Machine) (instr : Nat) (junk : Junk) : StepResult :=
  let op := instr >>> 12
  if op = OP_ADD then
    let r0 := (instr >>> 9) &&& 0x7
    let r1 := (instr >>> 6) &&& 0x7
    let imm_flag := (instr >>> 5) &&& 0x1
    let regs2 :=
      if imm_flag = 1 then
        regWrite s.registers r0 (s.registers r1 + sign_extend (instr &&& 0x1F) 5)
      else
        regWrite s.registers r0 (s.registers r1 + s.registers (instr &&& 0x7))
    .ok { s with registers := update_flags regs2 r0 }
  else if op = OP_AND then
    let r0 := (instr >>> 9) &&& 0x7
    let r1 := (instr >>> 6) &&& 0x7
    let imm_flag := (instr >>> 5) &&& 0x1
    let regs2 :=
      if imm_flag = 1 then
        regWrite s.registers r0 (s.registers r1 &&& sign_extend (instr &&& 0x1F) 5)
      else
        regWrite s.registers r0 (s.registers r1 &&& s.registers (instr &&& 0x7))
    .ok { s with registers := update_flags regs2 r0 }
  else if op = OP_NOT then
    let r0 := (instr >>> 9) &&& 0x7
    let r1 := (instr >>> 6) &&& 0x7
    let regs2 := regWrite s.registers r0 (65535 ^^^ s.registers r1)
    .ok { s with registers := update_flags regs2 r0 }
  else if op = OP_BR then
    let pc_offset := sign_extend (instr &&& 0x1FF) 9
    let cond_flag := (instr >>> 9) &&& 0x7
    if cond_flag &&& s.registers R_COND ≠ 0 then
      .ok { s with registers := regWrite s.registers R_PC (s.registers R_PC + pc_offset) }
    else .ok s
  else if op = OP_JMP then
    let r1 := (instr >>> 6) &&& 0x7
    .ok { s with registers := regWrite s.registers R_PC (s.registers R_PC + s.registers r1) }
  else if op = OP_JSR then
    let long_flag := (instr >>> 11) &&& 1
    let regs1 := regWrite s.registers R_R7 (s.registers R_PC)
    if long_flag = 1 then
      .ok { s with registers := regWrite regs1 R_PC (regs1 junk.r1) }
    else .ok { s with registers := regs1 }
  else if op = OP_LD then
    let r0 := (instr >>> 9) &&& 0x7
    let pc_offset := sign_extend (instr &&& 0x1FF) 9
    let rd := mem_read s ((s.registers R_PC + pc_offset) % 65536)
    let regs2 := regWrite rd.2.registers r0 rd.1
    .ok { rd.2 with registers := update_flags regs2 r0 }
  else if op = OP_LDI then
    let r0 := (instr >>> 9) &&& 0x7
    let rd1 := mem_read s ((s.registers R_PC + junk.pc_offset) % 65536)
    let rd2 := mem_read rd1.2 (rd1.1 % 65536)
    .ok { rd2.2 with registers := update_flags rd2.2.registers r0 }
  else if op = OP_LDR then
    let r0 := (instr >>> 9) &&& 0x7
    let r1 := (instr >>> 6) &&& 0x7
    let offset := sign_extend (instr &&& 0x3F) 6
    let rd := mem_read s ((s.registers r1 + offset) % 65536)
    let regs2 := regWrite rd.2.registers r0 rd.1
    .ok { rd.2 with registers := update_flags regs2 r0 }
  else if op = OP_LEA then
    let r0 := (instr >>> 9) &&& 0x7
    let pc_offset := sign_extend (instr &&& 0x1FF) 9
    let regs2 := regWrite s.registers r0 (s.registers R_PC + pc_offset)
    .ok { s with registers := update_flags regs2 r0 }
  else if op = OP_ST then
    let r0 := (instr >>> 9) &&& 0x7
    let pc_offset := sign_extend (instr &&& 0x1FF) 9
    .ok { s with memory := mem_write s.memory ((s.registers R_PC + pc_offset) % 65536) (s.registers r0) }
  else if op = OP_STI then
    let r0 := (instr >>> 9) &&& 0x7
    let pc_offset := sign_extend (instr &&& 0x1FF) 9
    let rd := mem_read s ((s.registers R_PC + pc_offset) % 65536)
    .ok { rd.2 with memory := mem_write rd.2.memory (rd.1 % 65536) (rd.2.registers r0) }
  else if op = OP_STR then
    let r0 := (instr >>> 9) &&& 0x7
    let r1 := (instr >>> 6) &&& 0x7
    let offset := sign_extend (instr &&& 0x3F) 6
    .ok { s with memory := mem_write s.memory ((s.registers r1 + offset) % 65536) (s.registers r0) }
  else if op = OP_TRAP then
    execTrap s instr junk
  else
    .abort

/-- One iteration of the `while (running)` loop: fetch the word at `PC`
through `mem_read` (post-incrementing `PC` mod `2^16`), then dispatch. -/
def step (s : Machine) (junk : Junk) : StepResult :=
  let fetched := mem_read s (s.registers R_PC)
  let s2 : Machine :=
    { fetched.2 with
      registers := regWrite fetched.2.registers R_PC (fetched.2.registers R_PC + 1) }
  execInstr s2 fetched.1 junk

/-- Result of driving the execution loop with bounded fuel. -/
inductive RunResult where
  | outOfFuel (s : Machine)
  | halted (s : Machine)
  | aborted

/-- The `while (running)` loop itself: repeat `step` until `running`
is cleared by `TRAP_HALT` or the process aborts; `js` supplies the junk
values of each iteration's uninitialized locals. -/
def run : Nat → Machine → (Nat → Junk) → RunResult
  | 0, s, _ => .outOfFuel s
  | fuel + 1, s, js =>
    match step s (js 0) with
    | .ok s2 => run fuel s2 (fun i => js (i + 1))
    | .halt s2 => .halted s2
    | .abort => .aborted

/-- The machine state carried by a non-aborting step result. -/
def stateOf : StepResult → Option Machine
  | .ok s => some s
  | .halt s => some s
  | .abort => none

/-- Running means the `while` loop will iterate again. -/
def isRunning : StepResult → Bool
  | .ok _ => true
  | _ => false

/-- Halted means `running` was cleared by `TRAP_HALT`. -/
def isHalted : StepResult → Bool
  | .halt _ => true
  | _ => false

/-! ### Concrete states used by the claim theorems -/

def regs0 : Nat → Nat := fun _ => 0

def mem0 : Nat → Nat := fun _ => 0

def junk0 : Junk := { r1 := 0, pc_offset := 0, c := 0 }

/-- `JMP R7` (`0xC1C0`) at `0x3000`, with `R7 = 0x4000`. -/
def sC1 : Machine :=
  { memory := mem_write mem0 0x3000 0xC1C0,
    registers := regWrite (regWrite regs0 R_PC 0x3000) R_R7 0x4000,
    keys := [], input := [], output := [] }

/-- `JSRR R2` (`0x4080`) at `0x3000`, with `R2 = 0x4000`. -/
def sC2 : Machine :=
  { memory := mem_write mem0 0x3000 0x4080,
    registers := regWrite (regWrite regs0 R_PC 0x3000) 2 0x4000,
    keys := [], input := [], output := [] }

/-- `LDI R3, #1` (`0xA601`) at `0x3000`, with `Memory[0x3002] = 0x4000`,
`Memory[0x4000] = 42`, and `R3 = 5` beforehand. -/
def sC3 : Machine :=
  { memory := mem_write (mem_write (mem_write mem0 0x3000 0xA601) 0x3002 0x4000) 0x4000 42,
    registers := regWrite (regWrite regs0 R_PC 0x3000) 3 5,
    keys := [], input := [], output := [] }

/-- `TRAP GETC` (`0xF020`) at `0x3000`, with `COND = FL_ZRO` and the
character `65` pending on input. -/
def sC4 : Machine :=
  { memory := mem_write mem0 0x3000 0xF020,
    registers := regWrite (regWrite regs0 R_PC 0x3000) R_COND 2,
    keys := [], input := [65], output := [] }

/-- No key available, keyboard data register holding `0`. -/
def sC5a : Machine :=
  { memory := mem0, registers := regs0, keys := [false], input := [], output := [] }

/-- No key available, keyboard data register holding `0x1234`. -/
def sC5b : Machine :=
  { memory := mem_write mem0 MR_KBDR 0x1234, registers := regs0,
    keys := [false], input := [], output := [] }

/-- A key available, with character `65` pending. -/
def sC5c : Machine :=
  { memory := mem0, registers := regs0, keys := [true], input := [65], output := [] }

/-- `ADD R0, R0, #1` (`0x1021`) at `0x3000`, with `R0 = 0xFFFF`. -/
def sC7 : Machine :=
  { memory := mem_write mem0 0x3000 0x1021,
    registers := regWrite (regWrite regs0 R_PC 0x3000) 0 0xFFFF,
    keys := [], input := [], output := [] }

/-- `TRAP HALT` (`0xF025`) at `0x3000`. -/
def sC8 : Machine :=
  { memory := mem_write mem0 0x3000 0xF025,
    registers := regWrite regs0 R_PC 0x3000,
    keys := [], input := [], output := [] }

/-- `TRAP IN` (`0xF023`) at `0x3000`, with the character `65` pending. -/
def sC9 : Machine :=
  { memory := mem_write mem0 0x3000 0xF023,
    registers := regWrite regs0 R_PC 0x3000,
    keys := [], input := [65], output := [] }

/-- Junk for the `TRAP_IN` case: the uninitialized pointer `c`
truncates to `0xBEEF`. -/
def junkC9 : Junk := { r1 := 0, pc_offset := 0, c := 0xBEEF }

/-- `TRAP 0x26` (`0xF026`), an undefined trap vector, at `0x3000`. -/
def sC10 : Machine :=
  { memory := mem_write mem0 0x3000 0xF026,
    registers := regWrite regs0 R_PC 0x3000,
    keys := [], input := [], output := [] }

/-! ### Shared lemmas about the embedding -/

lemma regWrite_self (regs : Nat → Nat) (r v : Nat) : regWrite regs r v r = v % 65536 := by
  simp [regWrite]

lemma regWrite_ne (regs : Nat → Nat) (r v i : Nat) (h : i ≠ r) :
    regWrite regs r v i = regs i := by
  simp [regWrite, h]

lemma mem_read_plain (s : Machine) (a : Nat) (h : a ≠ MR_KBSR) :
    mem_read s a = (s.memory a, s) := by
  simp [mem_read, h]

lemma step_eq (s : Machine) (junk : Junk) (h : s.registers R_PC ≠ MR_KBSR) :
    step s junk =
      execInstr { s with registers := regWrite s.registers R_PC (s.registers R_PC + 1) }
        (s.memory (s.registers R_PC)) junk := by
  unfold step
  rw [mem_read_plain s _ h]

lemma update_flags_cond (regs : Nat → Nat) (r : Nat) :
    update_flags regs r R_COND = flagOf (regs r) := by
  unfold update_flags flagOf
  split_ifs <;> simp [regWrite, R_COND, FL_POS, FL_ZRO, FL_NEG]

lemma update_flags_ne (regs : Nat → Nat) (r i : Nat) (h : i ≠ R_COND) :
    update_flags regs r i = regs i := by
  unfold update_flags
  split_ifs <;> exact regWrite_ne _ _ _ _ h

/-! ### Spec-side definitions, for comparison with the code -/

/-- Stated from claim C6's words: the signed interpretation of a
`bit_count`-bit value (two's complement: top bit weighs `-2^(bit_count-1)`). -/
def signedInterp (v bit_count : Nat) : Int :=
  if v < 2 ^ (bit_count - 1) then (v : Int) else (v : Int) - 2 ^ bit_count

/-- Stated from claim C4's words: `cond` is exactly one of the three
flag bits, chosen consistently with the signed 16-bit interpretation of
`v` (zero gives ZRO, sign bit set gives NEG, otherwise POS). -/
def SpecFlagRule (cond v : Nat) : Prop :=
  (cond = FL_POS ∨ cond = FL_ZRO ∨ cond = FL_NEG) ∧
  (v = 0 → cond = FL_ZRO) ∧
  (Nat.testBit v 15 = true → cond = FL_NEG) ∧
  (v ≠ 0 → Nat.testBit v 15 = false → cond = FL_POS)

/-! ### C1 -- JMP -/

/-- C1 (code evaluated at the failing input): executing `JMP R7` at
`PC = 0x3000` with `R7 = 0x4000` leaves the machine with
`PC = 0x7001 = (0x3000 + 1) + 0x4000`, because `OP_JMP` performs
`registers[R_PC] += registers[r1]` rather than an absolute jump; the
claim requires `PC = 0x4000`. -/
theorem c1_jmp_adds_instead_of_sets :
    sC1.registers R_R7 = 0x4000 ∧
    (stateOf (step sC1 junk0)).map (fun s => s.registers R_PC) = some 0x7001 ∧
    (0x7001 : Nat) ≠ 0x4000 := by
  refine ⟨by decide, by decide, by decide⟩

/-! ### C2 -- JSR/JSRR -/

/-- C2 (code evaluated at the failing input): executing `JSRR R2`
(`0x4080`, long flag clear) at `PC = 0x3000` with `R2 = 0x4000` sets
`R7 = 0x3001` as the claim states, but leaves `PC = 0x3001`: the
register branch of `OP_JSR` never assigns `PC`, so control is not
transferred to the base register's value `0x4000`. -/
theorem c2_jsrr_never_jumps :
    sC2.registers 2 = 0x4000 ∧
    (stateOf (step sC2 junk0)).map (fun s => (s.registers R_R7, s.registers R_PC)) =
      some (0x3001, 0x3001) ∧
    (0x3001 : Nat) ≠ 0x4000 := by
  refine ⟨by decide, by decide, by decide⟩

/-! ### C3 -- LDI -/

/-- C3 (code evaluated at the failing input): with
`Memory[0x3002] = 0x4000`, `Memory[0x4000] = 42` and `R3 = 5`,
executing `LDI R3, #1` (`0xA601`) at `PC = 0x3000` leaves `R3 = 5`:
`OP_LDI` assigns the loaded word to the local `pc_offset` (itself used
uninitialized in the address computation) and never writes the
destination register, so `R3` does not receive `42`. -/
theorem c3_ldi_never_writes_destination :
    sC3.memory 0x3002 = 0x4000 ∧
    sC3.memory 0x4000 = 42 ∧
    (stateOf (step sC3 junk0)).map (fun s => s.registers 3) = some 5 ∧
    (5 : Nat) ≠ 42 := by
  refine ⟨by decide, by decide, by decide, by decide⟩

/-! ### C9 -- TRAP IN -/

/-- C9 (code evaluated at the failing input): executing `TRAP IN`
(`0xF023`) with the character `65` pending and the uninitialized
pointer `c` truncating to `0xBEEF` prints the prompt and echoes `65`,
but stores `0xBEEF` -- the truncated pointer, via
`registers[R_R0] = (uint16_t)c;` -- into `R0` instead of the
character's code `65`. -/
theorem c9_trap_in_stores_pointer_not_char :
    (stateOf (step sC9 junkC9)).map (fun s => (s.registers R_R0, s.output)) =
      some (0xBEEF, promptBytes ++ [65]) ∧
    (0xBEEF : Nat) ≠ 65 := by
  refine ⟨by decide, by decide⟩

/-! ### C4 -- condition-flag invariant -/

/-- C4 counterexample: executing `TRAP GETC` (`0xF020`) with
`COND = FL_ZRO` and the character `65` pending changes `COND` to
`FL_POS`, so the claim's statement that executing TRAP leaves `COND`
unchanged is false. -/
theorem c4_trap_getc_changes_cond :
    sC4.memory 0x3000 >>> 12 = OP_TRAP ∧
    sC4.registers R_COND = FL_ZRO ∧
    (stateOf (step sC4 junk0)).map (fun s => s.registers R_COND) = some FL_POS ∧
    FL_POS ≠ FL_ZRO := by
  refine ⟨by decide, by decide, by decide, by decide⟩

/-! ### C5 -- memory-mapped keyboard read -/

/-- C5 counterexample: when no key is available, reading the status
address returns `0` but does not update the keyboard data word: two
machines that differ only in the data word (`0` vs `0x1234`) still
differ in it after the read, so the read did not store a polled value
into the data word, contradicting the claim that both words of the
mapped pair are updated before the status value is returned. -/
theorem c5_nokey_read_leaves_data_word :
    (mem_read sC5a MR_KBSR).1 = 0 ∧
    (mem_read sC5b MR_KBSR).1 = 0 ∧
    (mem_read sC5a MR_KBSR).2.memory MR_KBDR = 0 ∧
    (mem_read sC5b MR_KBSR).2.memory MR_KBDR = 0x1234 ∧
    sC5b.memory MR_KBDR = 0x1234 ∧
    (0x1234 : Nat) ≠ 0 := by
  refine ⟨by decide, by decide, by decide, by decide, by decide, by decide⟩

/-! ### C6 -- sign extension -/

/-- Helper: `sign_extend` agrees with the two's-complement
representation of the signed interpretation, for every width from 1 to
16. -/
lemma sign_extend_spec (bc v : Nat) (hbc1 : 1 ≤ bc) (hbc : bc ≤ 16) (hv : v < 2 ^ bc) :
    (sign_extend v bc : Int) = signedInterp v bc % 65536 := by
  have hpow : 2 ^ bc = 2 ^ (bc - 1) * 2 := by
    rw [← Nat.pow_succ]
    congr 1
    omega
  have hdiv2 : v / 2 ^ (bc - 1) < 2 := by
    apply Nat.div_lt_of_lt_mul
    omega
  have htop : (v >>> (bc - 1)) &&& 1 = v / 2 ^ (bc - 1) := by
    rw [Nat.shiftRight_eq_div_pow, Nat.and_one_is_mod]
    exact Nat.mod_eq_of_lt hdiv2
  unfold sign_extend signedInterp
  by_cases hc : v < 2 ^ (bc - 1)
  · have h0 : v / 2 ^ (bc - 1) = 0 := Nat.div_eq_of_lt hc
    rw [htop, h0, if_neg (by omega), if_pos hc]
    have hv16 : v < 65536 := by
      calc v < 2 ^ bc := hv
        _ ≤ 2 ^ 16 := Nat.pow_le_pow_right (by norm_num) hbc
        _ = 65536 := by norm_num
    rw [Int.emod_eq_of_lt (by positivity) (by exact_mod_cast hv16)]
  · have h1 : v / 2 ^ (bc - 1) = 1 := by
      apply Nat.div_eq_of_lt_le (by omega)
      omega
    rw [htop, h1, if_pos rfl, if_neg hc]
    have hor : v ||| 0xFFFF <<< bc = 2 ^ bc * 0xFFFF + v := by
      rw [Nat.shiftLeft_eq, Nat.lor_comm, Nat.mul_comm 0xFFFF (2 ^ bc),
        ← Nat.mul_add_lt_is_or hv]
    rw [hor]
    push_cast
    have hge : (0 : Int) ≤ 2 ^ bc := by positivity
    generalize (2 : Int) ^ bc = t at *
    omega

/-- C6: for each ISA bit width (5, 6, 9, 11) and every value
representable in that many bits, `sign_extend` produces exactly the
16-bit two's-complement representation of the value's signed
interpretation; in particular `sign_extend 0b11111 5 = 0xFFFF` and
`sign_extend 0b01111 5 = 0x000F`. -/
theorem c6_sign_extend_correct :
    (∀ bit_count v, (bit_count = 5 ∨ bit_count = 6 ∨ bit_count = 9 ∨ bit_count = 11) →
      v < 2 ^ bit_count →
      (sign_extend v bit_count : Int) = signedInterp v bit_count % 65536) ∧
    sign_extend 0b11111 5 = 0xFFFF ∧ sign_extend 0b01111 5 = 0x000F := by
  refine ⟨?_, by decide, by decide⟩
  rintro bit_count v (rfl | rfl | rfl | rfl) hv <;>
    exact sign_extend_spec _ _ (by norm_num) (by norm_num) hv

/-- Witness for C6, at `bit_count = 5`, `v = 0b11111`. -/
theorem c6_sign_extend_correct_witness :
    (sign_extend 31 5 : Int) = signedInterp 31 5 % 65536 :=
  c6_sign_extend_correct.1 5 31 (Or.inl rfl) (by decide)

/-! ### C7 -- ADD/AND wrap modulo 2^16 -/

/-- Helper: a 3-bit operand field is below 8. -/
lemma and7_lt (x : Nat) : x &&& 7 < 8 :=
  lt_of_le_of_lt Nat.and_le_right (by norm_num)

/-- C7: for every machine state and every fetched ADD (resp. AND)
instruction, the destination register receives the sum (resp. bitwise
and) of the two operand values reduced modulo `2^16`; in particular
`ADD R0, R0, #1` with `R0 = 0xFFFF` yields `R0 = 0` with the ZERO flag. -/
theorem c7_add_and_wrap :
    (∀ s junk instr, s.registers R_PC ≠ MR_KBSR → s.memory (s.registers R_PC) = instr →
      instr >>> 12 = OP_ADD →
      ∃ s2, step s junk = .ok s2 ∧
        s2.registers ((instr >>> 9) &&& 7) =
          (s.registers ((instr >>> 6) &&& 7) +
            (if (instr >>> 5) &&& 1 = 1 then sign_extend (instr &&& 0x1F) 5
             else s.registers (instr &&& 7))) % 65536) ∧
    (∀ s junk instr, s.registers R_PC ≠ MR_KBSR → s.memory (s.registers R_PC) = instr →
      instr >>> 12 = OP_AND →
      ∃ s2, step s junk = .ok s2 ∧
        s2.registers ((instr >>> 9) &&& 7) =
          (s.registers ((instr >>> 6) &&& 7) &&&
            (if (instr >>> 5) &&& 1 = 1 then sign_extend (instr &&& 0x1F) 5
             else s.registers (instr &&& 7))) % 65536) ∧
    (stateOf (step sC7 junk0)).map (fun s => (s.registers R_R0, s.registers R_COND)) =
      some (0, FL_ZRO) := by
  have hdst : ∀ instr : Nat, (instr >>> 9) &&& 7 ≠ R_COND := by
    intro instr
    have := and7_lt (instr >>> 9)
    unfold R_COND
    omega
  have hsrc : ∀ x : Nat, x &&& 7 ≠ R_PC := by
    intro x
    have := and7_lt x
    unfold R_PC
    omega
  refine ⟨?_, ?_, by decide⟩ <;>
    (intro s junk instr hpc hfetch hop
     rw [step_eq s junk hpc, hfetch]
     simp only [execInstr, hop, OP_ADD, OP_AND, OP_NOT, OP_BR, OP_JMP, OP_JSR, OP_LD,
       OP_LDI, OP_LDR, OP_LEA, OP_ST, OP_STI, OP_STR, OP_TRAP]
     norm_num
     rw [update_flags_ne _ _ _ (hdst instr)]
     by_cases him : instr >>> 5 % 2 = 1
     · simp only [if_pos him]
       rw [regWrite_self, regWrite_ne _ _ _ _ (hsrc (instr >>> 6))]
     · simp only [if_neg him]
       rw [regWrite_self, regWrite_ne _ _ _ _ (hsrc (instr >>> 6)),
         regWrite_ne _ _ _ _ (hsrc instr)])

/-- Witness for C7, at the ADD part with `ADD R0, R0, #1` (`0x1021`)
fetched from `sC7`. -/
theorem c7_add_and_wrap_witness :
    ∃ s2, step sC7 junk0 = .ok s2 ∧
      s2.registers ((0x1021 >>> 9) &&& 7) =
        (sC7.registers ((0x1021 >>> 6) &&& 7) +
          (if (0x1021 >>> 5) &&& 1 = 1 then sign_extend (0x1021 &&& 0x1F) 5
           else sC7.registers (0x1021 &&& 7))) % 65536 :=
  c7_add_and_wrap.1 sC7 junk0 0x1021 (by decide) (by decide) (by decide)

/-! ### C10 -- undefined trap vectors -/

/-- C10: executing a TRAP instruction whose 8-bit vector lies outside
`{0x20, ..., 0x25}` overwrites `R7` with the incremented `PC` and does
nothing else: the resulting machine is `s` with only the `PC` and `R7`
register cells changed (memory, I/O streams and all other registers,
including `COND`, are untouched), and the loop stays running. -/
theorem c10_undefined_trap_is_noop (s : Machine) (junk : Junk) (instr : Nat)
    (hpc : s.registers R_PC ≠ MR_KBSR)
    (hfetch : s.memory (s.registers R_PC) = instr)
    (hop : instr >>> 12 = OP_TRAP)
    (hvec : instr &&& 0xFF < 0x20 ∨ 0x25 < instr &&& 0xFF) :
    step s junk =
      .ok { s with registers :=
        (regWrite (regWrite s.registers R_PC (s.registers R_PC + 1)) R_R7
          ((s.registers R_PC + 1) % 65536)) } ∧
    isRunning (step s junk) = true ∧
    (∀ r, r ≠ R_PC → r ≠ R_R7 →
      regWrite (regWrite s.registers R_PC (s.registers R_PC + 1)) R_R7
        ((s.registers R_PC + 1) % 65536) r = s.registers r) := by
  have h20 : instr &&& 0xFF ≠ TRAP_GETC := by unfold TRAP_GETC; omega
  have h21 : instr &&& 0xFF ≠ TRAP_OUT := by unfold TRAP_OUT; omega
  have h22 : instr &&& 0xFF ≠ TRAP_PUTS := by unfold TRAP_PUTS; omega
  have h23 : instr &&& 0xFF ≠ TRAP_IN := by unfold TRAP_IN; omega
  have h24 : instr &&& 0xFF ≠ TRAP_PUTSP := by unfold TRAP_PUTSP; omega
  have h25 : instr &&& 0xFF ≠ TRAP_HALT := by unfold TRAP_HALT; omega
  have h1 : step s junk =
      .ok { s with registers :=
        (regWrite (regWrite s.registers R_PC (s.registers R_PC + 1)) R_R7
          ((s.registers R_PC + 1) % 65536)) } := by
    rw [step_eq s junk hpc, hfetch]
    simp only [execInstr, execTrap, hop, OP_ADD, OP_AND, OP_NOT, OP_BR, OP_JMP, OP_JSR,
      OP_LD, OP_LDI, OP_LDR, OP_LEA, OP_ST, OP_STI, OP_STR, OP_TRAP]
    norm_num
    rw [if_neg h20, if_neg h21, if_neg h22, if_neg h23, if_neg h24, if_neg h25]
    rw [regWrite_self]
  refine ⟨h1, by rw [h1]; rfl, ?_⟩
  intro r hr8 hr7
  rw [regWrite_ne _ _ _ _ hr7, regWrite_ne _ _ _ _ hr8]

/-- Witness for C10, at `TRAP 0x26` fetched from `sC10`. -/
theorem c10_undefined_trap_is_noop_witness :
    step sC10 junk0 =
      .ok { sC10 with registers :=
        (regWrite (regWrite sC10.registers R_PC (sC10.registers R_PC + 1)) R_R7
          ((sC10.registers R_PC + 1) % 65536)) } ∧
    isRunning (step sC10 junk0) = true ∧
    (∀ r, r ≠ R_PC → r ≠ R_R7 →
      regWrite (regWrite sC10.registers R_PC (sC10.registers R_PC + 1)) R_R7
        ((sC10.registers R_PC + 1) % 65536) r = sC10.registers r) :=
  c10_undefined_trap_is_noop sC10 junk0 0xF026 (by decide) (by decide) (by decide)
    (by decide)

/-- C5 (amended): reading the keyboard-status address polls the input
source; with a key available it stores both the status word (`1 << 15`)
and the data word (the polled character) before returning the updated
status value; with no key available it stores only the status word
(`0`), leaving the data word alone; reading any other address and
writing any address are transparent array accesses with no side
effect. -/
theorem c5_mem_read_mapped_pair :
    (∀ s ks ch inp, s.keys = true :: ks → s.input = ch :: inp →
      mem_read s MR_KBSR =
        (32768, { s with
          memory := mem_write (mem_write s.memory MR_KBSR (1 <<< 15)) MR_KBDR ch,
          keys := ks, input := inp })) ∧
    (∀ s ks, s.keys = false :: ks →
      mem_read s MR_KBSR =
        (0, { s with memory := mem_write s.memory MR_KBSR 0, keys := ks })) ∧
    (∀ s a, a ≠ MR_KBSR → mem_read s a = (s.memory a, s)) ∧
    (∀ m a v i, i ≠ a → mem_write m a v i = m i) := by
  refine ⟨?_, ?_, mem_read_plain, ?_⟩
  · intro s ks ch inp hk hi
    unfold mem_read
    rw [if_pos rfl]
    simp [check_key, getchar, hk, hi, mem_write, MR_KBSR, MR_KBDR]
  · intro s ks hk
    unfold mem_read
    rw [if_pos rfl]
    simp [check_key, hk, mem_write, MR_KBSR]
  · intro m a v i h
    simp [mem_write, h]

/-- Witness for C5, at the key-available branch with `sC5c`. -/
theorem c5_mem_read_mapped_pair_witness :
    mem_read sC5c MR_KBSR =
      (32768, { sC5c with
        memory := mem_write (mem_write sC5c.memory MR_KBSR (1 <<< 15)) MR_KBDR 65,
        keys := [], input := [] }) :=
  c5_mem_read_mapped_pair.1 sC5c [] 65 [] rfl rfl

/-! ### C8 -- HALT stops the loop -/

/-- C8: a fetched `TRAP HALT` instruction halts the loop, and giving
the loop any amount of extra fuel changes nothing -- no further
instruction is ever fetched; conversely any other successfully decoded
instruction (any opcode except the aborting `OP_RTI`/`OP_RES`, and not
the HALT trap) leaves the loop running. -/
theorem c8_halt_stops_loop :
    (∀ s junk instr, s.registers R_PC ≠ MR_KBSR → s.memory (s.registers R_PC) = instr →
      instr >>> 12 = OP_TRAP → instr &&& 0xFF = TRAP_HALT →
      isHalted (step s junk) = true ∧
      ∀ fuel js, js 0 = junk → run (fuel + 1) s js = run 1 s js) ∧
    (∀ s junk instr, s.registers R_PC ≠ MR_KBSR → s.memory (s.registers R_PC) = instr →
      instr < 65536 → instr >>> 12 ≠ OP_RTI → instr >>> 12 ≠ OP_RES →
      ¬(instr >>> 12 = OP_TRAP ∧ instr &&& 0xFF = TRAP_HALT) →
      isRunning (step s junk) = true) := by
  constructor
  · intro s junk instr hpc hfetch hop hvec
    have hs : ∃ s2, step s junk = .halt s2 := by
      rw [step_eq s junk hpc, hfetch]
      simp only [execInstr, execTrap, hop, hvec, OP_BR, OP_ADD, OP_LD, OP_ST, OP_JSR,
        OP_AND, OP_LDR, OP_STR, OP_RTI, OP_NOT, OP_LDI, OP_STI, OP_JMP, OP_RES, OP_LEA,
        OP_TRAP, TRAP_GETC, TRAP_OUT, TRAP_PUTS, TRAP_IN, TRAP_PUTSP, TRAP_HALT]
      norm_num
    obtain ⟨s2, hs⟩ := hs
    refine ⟨by rw [hs]; rfl, ?_⟩
    intro fuel js hjs
    have hlong : run (fuel + 1) s js = .halted s2 := by
      simp only [run]
      rw [hjs, hs]
    have hshort : run 1 s js = .halted s2 := by
      simp only [run]
      rw [hjs, hs]
    rw [hlong, hshort]
  · intro s junk instr hpc hfetch hlt h8 h13 hnothalt
    rw [step_eq s junk hpc, hfetch]
    have h16 : instr >>> 12 < 16 := by
      rw [Nat.shiftRight_eq_div_pow]
      norm_num
      omega
    simp only [execInstr]
    generalize hgen : instr >>> 12 = o at h16 h8 h13 hnothalt ⊢
    interval_cases o <;>
      simp_all [OP_BR, OP_ADD, OP_LD, OP_ST, OP_JSR, OP_AND, OP_LDR, OP_STR, OP_RTI,
        OP_NOT, OP_LDI, OP_STI, OP_JMP, OP_RES, OP_LEA, OP_TRAP, execTrap, isRunning] <;>
      split_ifs <;>
      simp_all [isRunning]

/-- Witness for C8: the HALT part at `sC8`, with five units of extra
fuel, and the running part at `sC7`. -/
theorem c8_halt_stops_loop_witness :
    (isHalted (step sC8 junk0) = true ∧
      run 5 sC8 (fun _ => junk0) = run 1 sC8 (fun _ => junk0)) ∧
    isRunning (step sC7 junk0) = true := by
  refine ⟨⟨?_, ?_⟩, ?_⟩
  · exact (c8_halt_stops_loop.1 sC8 junk0 0xF025 (by decide) (by decide) (by decide)
      (by decide)).1
  · exact (c8_halt_stops_loop.1 sC8 junk0 0xF025 (by decide) (by decide) (by decide)
      (by decide)).2 4 (fun _ => junk0) rfl
  · exact c8_halt_stops_loop.2 sC7 junk0 0x1021 (by decide) (by decide) (by decide)
      (by decide) (by decide) (by decide)

/-! ### C4 -- condition-flag behavior, amended -/

/-- Helper: `mem_read` never touches the register file. -/
lemma mem_read_registers (s : Machine) (a : Nat) :
    (mem_read s a).2.registers = s.registers := by
  unfold mem_read
  split_ifs with h
  · by_cases hk : (check_key s.keys).1 = true <;> simp [hk]
  · rfl

/-- Helper: the flag computed by the code's rule satisfies the claim's
rule for any 16-bit value. -/
lemma flagOf_rule (v : Nat) (hv : v < 65536) : SpecFlagRule (flagOf v) v := by
  have hsh : v >>> 15 = v / 32768 := by
    rw [Nat.shiftRight_eq_div_pow]
  have htb : Nat.testBit v 15 = decide (v / 32768 % 2 = 1) := by
    rw [Nat.testBit_to_div_mod]
  have hd2 : v / 32768 < 2 := by omega
  unfold SpecFlagRule flagOf FL_POS FL_ZRO FL_NEG
  rw [hsh, htb]
  split_ifs with h0 h15
  · subst h0
    norm_num
  · refine ⟨Or.inr (Or.inr rfl), fun h => absurd h h0, fun _ => rfl, ?_⟩
    intro _ htb2
    have h1 : v / 32768 = 1 := by omega
    rw [h1] at htb2
    norm_num at htb2
  · refine ⟨Or.inl rfl, fun h => absurd h h0, ?_, fun _ _ => rfl⟩
    intro htb2
    have h1 : v / 32768 = 0 := by omega
    rw [h1] at htb2
    norm_num at htb2

/-- Helper: writing a register below `R_COND` and then calling
`update_flags` on it leaves `COND` consistent with the written value. -/
lemma spec_rule_write (regs : Nat → Nat) (r v : Nat) (hr : r ≠ R_COND) :
    SpecFlagRule (update_flags (regWrite regs r v) r R_COND)
      (update_flags (regWrite regs r v) r r) := by
  rw [update_flags_cond, update_flags_ne _ _ _ hr, regWrite_self]
  exact flagOf_rule _ (Nat.mod_lt _ (by norm_num))

/-- Helper: calling `update_flags` on an unwritten register leaves
`COND` consistent with that register's (unchanged) 16-bit value. -/
lemma spec_rule_nowrite (regs : Nat → Nat) (r : Nat) (hr : r ≠ R_COND)
    (hv : regs r < 65536) :
    SpecFlagRule (update_flags regs r R_COND) (update_flags regs r r) := by
  rw [update_flags_cond, update_flags_ne _ _ _ hr]
  exact flagOf_rule _ hv

/-- C4 (amended): after any of ADD, AND, NOT, LD, LDI, LDR, LEA, `COND`
holds exactly one of the three flags, consistent with the signed 16-bit
interpretation of the destination register's (new) value; ST, STI, STR,
BR, JMP and JSR leave `COND` unchanged; TRAP leaves `COND` unchanged
except for the vectors GETC and IN, which set it consistently with
`R0`'s new value. -/
theorem c4_flag_invariant (s : Machine) (junk : Junk) (instr : Nat)
    (hpc : s.registers R_PC ≠ MR_KBSR)
    (hfetch : s.memory (s.registers R_PC) = instr)
    (hreg : ∀ r, s.registers r < 65536) :
    (instr >>> 12 = OP_ADD ∨ instr >>> 12 = OP_AND ∨ instr >>> 12 = OP_NOT ∨
     instr >>> 12 = OP_LD ∨ instr >>> 12 = OP_LDI ∨ instr >>> 12 = OP_LDR ∨
     instr >>> 12 = OP_LEA →
      ∃ s2, step s junk = .ok s2 ∧
        SpecFlagRule (s2.registers R_COND) (s2.registers ((instr >>> 9) &&& 7))) ∧
    (instr >>> 12 = OP_ST ∨ instr >>> 12 = OP_STI ∨ instr >>> 12 = OP_STR ∨
     instr >>> 12 = OP_BR ∨ instr >>> 12 = OP_JMP ∨ instr >>> 12 = OP_JSR →
      ∃ s2, step s junk = .ok s2 ∧ s2.registers R_COND = s.registers R_COND) ∧
    (instr >>> 12 = OP_TRAP →
      ∃ s2, stateOf (step s junk) = some s2 ∧
        ((instr &&& 0xFF = TRAP_GETC ∨ instr &&& 0xFF = TRAP_IN →
          SpecFlagRule (s2.registers R_COND) (s2.registers R_R0)) ∧
         (instr &&& 0xFF ≠ TRAP_GETC → instr &&& 0xFF ≠ TRAP_IN →
          s2.registers R_COND = s.registers R_COND))) := by
  have hdst : ((instr >>> 9) &&& 7) ≠ R_COND := by
    have := and7_lt (instr >>> 9)
    unfold R_COND
    omega
  have hdst8 : ((instr >>> 9) &&& 7) ≠ R_PC := by
    have := and7_lt (instr >>> 9)
    unfold R_PC
    omega
  have h98 : R_COND ≠ R_PC := by decide
  have h97 : R_COND ≠ R_R7 := by decide
  have h09 : R_R0 ≠ R_COND := by decide
  refine ⟨?_, ?_, ?_⟩
  · rintro (hop | hop | hop | hop | hop | hop | hop) <;>
      (rw [step_eq s junk hpc, hfetch]
       simp only [execInstr, hop, OP_BR, OP_ADD, OP_LD, OP_ST, OP_JSR, OP_AND, OP_LDR,
         OP_STR, OP_RTI, OP_NOT, OP_LDI, OP_STI, OP_JMP, OP_RES, OP_LEA, OP_TRAP]
       norm_num)
    · split_ifs <;> exact spec_rule_write _ _ _ hdst
    · split_ifs <;> exact spec_rule_write _ _ _ hdst
    · exact spec_rule_write _ _ _ hdst
    · rw [mem_read_registers]
      exact spec_rule_write _ _ _ hdst
    · rw [mem_read_registers, mem_read_registers]
      refine spec_rule_nowrite _ _ hdst ?_
      show regWrite s.registers R_PC (s.registers R_PC + 1) ((instr >>> 9) &&& 7) < 65536
      rw [regWrite_ne _ _ _ _ hdst8]
      exact hreg _
    · rw [mem_read_registers]
      exact spec_rule_write _ _ _ hdst
    · exact spec_rule_write _ _ _ hdst
  · rintro (hop | hop | hop | hop | hop | hop) <;>
      (rw [step_eq s junk hpc, hfetch]
       simp only [execInstr, hop, OP_BR, OP_ADD, OP_LD, OP_ST, OP_JSR, OP_AND, OP_LDR,
         OP_STR, OP_RTI, OP_NOT, OP_LDI, OP_STI, OP_JMP, OP_RES, OP_LEA, OP_TRAP]
       norm_num
       (try split_ifs) <;>
         simp [mem_read_registers, regWrite, R_COND, R_PC, R_R7])
  · intro hop
    rw [step_eq s junk hpc, hfetch]
    simp only [execInstr, execTrap, hop, OP_BR, OP_ADD, OP_LD, OP_ST, OP_JSR, OP_AND,
      OP_LDR, OP_STR, OP_RTI, OP_NOT, OP_LDI, OP_STI, OP_JMP, OP_RES, OP_LEA, OP_TRAP]
    norm_num
    split_ifs with hg ho hp hi hpp hh
    · refine ⟨_, rfl, ?_, ?_⟩
      · intro _
        exact spec_rule_write _ _ _ h09
      · intro hng _
        exact absurd hg hng
    · refine ⟨_, rfl, ?_, ?_⟩
      · rintro (h | h)
        · exact absurd h hg
        · exact absurd (ho.symm.trans h) (by decide)
      · intro _ _
        simp [regWrite, R_COND, R_PC, R_R7]
    · refine ⟨_, rfl, ?_, ?_⟩
      · rintro (h | h)
        · exact absurd h hg
        · exact absurd (hp.symm.trans h) (by decide)
      · intro _ _
        simp [regWrite, R_COND, R_PC, R_R7]
    · refine ⟨_, rfl, ?_, ?_⟩
      · intro _
        exact spec_rule_write _ _ _ h09
      · intro _ hni
        exact absurd hi hni
    · refine ⟨_, rfl, ?_, ?_⟩
      · rintro (h | h)
        · exact absurd h hg
        · exact absurd (hpp.symm.trans h) (by decide)
      · intro _ _
        simp [regWrite, R_COND, R_PC, R_R7]
    · refine ⟨_, rfl, ?_, ?_⟩
      · rintro (h | h)
        · exact absurd h hg
        · exact absurd (hh.symm.trans h) (by decide)
      · intro _ _
        simp [regWrite, R_COND, R_PC, R_R7]
    · refine ⟨_, rfl, ?_, ?_⟩
      · rintro (h | h)
        · exact absurd h hg
        · exact absurd h hi
      · intro _ _
        simp [regWrite, R_COND, R_PC, R_R7]

/-- Witness for C4, at the TRAP part with `TRAP GETC` fetched from
`sC4`. -/
theorem c4_flag_invariant_witness :
    ∃ s2, stateOf (step sC4 junk0) = some s2 ∧
      ((0xF020 &&& 0xFF = TRAP_GETC ∨ 0xF020 &&& 0xFF = TRAP_IN →
        SpecFlagRule (s2.registers R_COND) (s2.registers R_R0)) ∧
       (0xF020 &&& 0xFF ≠ TRAP_GETC → 0xF020 &&& 0xFF ≠ TRAP_IN →
        s2.registers R_COND = sC4.registers R_COND)) :=
  (c4_flag_invariant sC4 junk0 0xF020 (by decide) (by decide)
    (by
      intro r
      simp only [sC4, regWrite, regs0]
      split_ifs <;> norm_num)).2.2 (by decide)
